import Mathlib

/-!
# Device plugin: reservation and fingerprint loop

A shallow embedding of `device/device.go` and `device/fingerprint.go`.

* Go maps (`map[string]string`) are association lists read by first match:
  `mapGet` is the two-valued lookup `v, ok := m[k]`, `mapSet` is the
  assignment `m[k] = v` (it overwrites an existing key), and the length of
  the list is `len(m)`.
* Go slices are lists; `append(s, x)` is `s ++ [x]`.
* `fmt.Sprintf("%d", i)` for a slice index `i` is the decimal rendering
  `toString i` of a natural number.
* A call on the plugin takes the plugin state and returns the state it leaves
  behind together with its result.
* `deviceLock` is taken and released inside `Reserve` and nowhere else, so a
  call is modelled as one atomic read of `devices`.
-/

namespace DevicePlugin

/-! ## Go maps -/

/-- A Go `map[string]string`. -/
abbrev GoMap := List (String × String)

/-- The lookup `v, ok := m[k]`: `some v` when `ok`, `none` otherwise. -/
def mapGet : GoMap → String → Option String
  | [], _ => none
  | (k', v) :: rest, k => if k' = k then some v else mapGet rest k

/-- The assignment `m[k] = v`. -/
def mapSet : GoMap → String → String → GoMap
  | [], k, v => [(k, v)]
  | (k', v') :: rest, k, v =>
    if k' = k then (k, v) :: rest else (k', v') :: mapSet rest k v

/-- The names bound in a map. -/
def mapKeys (m : GoMap) : List String := m.map Prod.fst

/-! ## Constants of the package -/

/-- The constant `pluginName`. -/
def pluginName : String := "papirus"

/-! ## Plugin state -/

/-- The struct `SkeletonDevicePlugin`: the logger (by its name) and the
registry `devices`. -/
structure SkeletonDevicePlugin where
  logger : String
  devices : GoMap
  deriving DecidableEq, Repr

/-- The constructor `NewPlugin(log)`: `log.Named(pluginName)` and
`make(map[string]string)`. -/
def NewPlugin : SkeletonDevicePlugin :=
  { logger := pluginName, devices := [] }

/-! ## Reservation -/

/-- The struct `device.Mount`. -/
structure Mount where
  TaskPath : String
  HostPath : String
  ReadOnly : Bool
  deriving DecidableEq, Repr

/-- The struct `device.DeviceSpec`. -/
structure DeviceSpec where
  TaskPath : String
  HostPath : String
  CgroupPerms : String
  deriving DecidableEq, Repr

/-- The struct `device.ContainerReservation`. -/
structure ContainerReservation where
  Envs : GoMap
  Mounts : List Mount
  Devices : List DeviceSpec
  deriving DecidableEq, Repr

/-- The two errors `Reserve` can return: the struct `reservationError` with
its `notExistingIDs`, and the gRPC status `InvalidArgument` built by
`status.Newf(codes.InvalidArgument, "unknown device %q", id)`, kept by the
`id` it is formatted from. -/
inductive ReserveError where
  | reservationError (notExistingIDs : List String)
  | invalidArgument (id : String)
  deriving DecidableEq, Repr

/-- The first loop of `Reserve` (lines 118-122): walk `deviceIDs`, appending
to `notExistingIDs` every id whose lookup in `devices` is not ok. -/
def collectNotExisting (devices : GoMap) : List String → List String → List String
  | [], notExistingIDs => notExistingIDs
  | id :: rest, notExistingIDs =>
    match mapGet devices id with
    | none => collectNotExisting devices rest (notExistingIDs ++ [id])
    | some _ => collectNotExisting devices rest notExistingIDs

/-- The mount appended at lines 137-141. -/
def classMount : Mount :=
  { TaskPath := "/usr/lib/libsome-library.so"
    HostPath := "/usr/lib/libprobably-some-fingerprinted-or-configured-library.so"
    ReadOnly := true }

/-- The device spec appended at lines 153-160 for position `i`. -/
def deviceSpecAt (i : Nat) : DeviceSpec :=
  { TaskPath := "/dev/skel" ++ toString i
    HostPath := "/dev/devActual"
    CgroupPerms := "rx" }

/-- The environment name `fmt.Sprintf("DEVICE_%d", i)`. -/
def envName (i : Nat) : String := "DEVICE_" ++ toString i

/-- The second loop of `Reserve` (lines 143-161), from position `i` on: a
failed lookup returns the `InvalidArgument` error, otherwise the environment
entry is assigned and the device spec appended. -/
def buildLoop (devices : GoMap) :
    Nat → List String → ContainerReservation → Except ReserveError ContainerReservation
  | _, [], resp => .ok resp
  | i, id :: rest, resp =>
    match mapGet devices id with
    | none => .error (.invalidArgument id)
    | some _ =>
      buildLoop devices (i + 1) rest
        { resp with
          Envs := mapSet resp.Envs (envName i) id
          Devices := resp.Devices ++ [deviceSpecAt i] }

/-- The method `Reserve`: the state the call leaves and its result. -/
def Reserve (d : SkeletonDevicePlugin) (deviceIDs : List String) :
    SkeletonDevicePlugin × Except ReserveError ContainerReservation :=
  if deviceIDs.length = 0 then
    (d, .ok { Envs := [], Mounts := [], Devices := [] })
  else
    let notExistingIDs := collectNotExisting d.devices deviceIDs []
    if notExistingIDs.length ≠ 0 then
      (d, .error (.reservationError notExistingIDs))
    else
      let resp : ContainerReservation := { Envs := [], Mounts := [], Devices := [] }
      let resp := { resp with Mounts := resp.Mounts ++ [classMount] }
      (d, buildLoop d.devices 0 deviceIDs resp)

/-! ## Fingerprinting -/

/-- The struct `device.DeviceLocality`. -/
structure DeviceLocality where
  PciBusID : String
  deriving DecidableEq, Repr

/-- The struct `device.Device`. -/
structure Device where
  ID : String
  Healthy : Bool
  HealthDesc : String
  HwLocality : Option DeviceLocality
  deriving DecidableEq, Repr

/-- The values of a `structs.Attribute` (integers, strings and booleans). -/
inductive Attribute where
  | int (v : Int)
  | string (v : String)
  | bool (v : Bool)
  deriving DecidableEq, Repr

/-- The struct `device.DeviceGroup` (its field `Type` is `Type_` here); a nil `Attributes`
map is `none`. -/
structure DeviceGroup where
  Vendor : String
  Type_ : String
  Name : String
  Devices : List Device
  Attributes : Option (List (String × Attribute))
  deriving DecidableEq, Repr

/-- The struct `device.FingerprintResponse`; a nil `Error` is `none`. -/
structure FingerprintResponse where
  Devices : List DeviceGroup
  Error : Option String
  deriving DecidableEq, Repr

/-- The constructor `device.NewFingerprint(devices...)` of the Nomad plugin
library: the response holding the given groups and no error. -/
def NewFingerprint (devices : List DeviceGroup) : FingerprintResponse :=
  { Devices := devices, Error := none }

/-- The slice `deviceGroups` built in `writeFingerprintToChannel` (lines
38-53); `ID` is the package variable set once by `uuid.Generate()`. -/
def deviceGroups (ID : String) : List DeviceGroup :=
  [ { Vendor := "adafruit"
      Type_ := "epaper"
      Name := "papirus"
      Devices := [ { ID := ID, Healthy := true, HealthDesc := "", HwLocality := none } ]
      Attributes := none } ]

/-- The method `writeFingerprintToChannel`: `devices` is the sequence of values
sent on the channel so far; the call leaves the plugin state and the channel
with one more value. -/
def writeFingerprintToChannel (ID : String) (d : SkeletonDevicePlugin)
    (devices : List FingerprintResponse) :
    SkeletonDevicePlugin × List FingerprintResponse :=
  (d, devices ++ [NewFingerprint (deviceGroups ID)])

/-- Where the goroutine `doFingerprint` stands: blocked in the `select`, in
the call of `writeFingerprintToChannel`, or returned. -/
inductive Phase where
  | selecting
  | publishing
  | stopped
  deriving DecidableEq, Repr

/-- The configuration of one `doFingerprint` goroutine: its phase, whether
`ctx.Done()` is closed, whether a value waits in `ticker.C`, the plugin, the
values sent on the output channel and whether that channel is closed. -/
structure LoopState where
  phase : Phase
  ctxDone : Bool
  tickReady : Bool
  plugin : SkeletonDevicePlugin
  sent : List FingerprintResponse
  closed : Bool
  deriving DecidableEq, Repr

/-- What can happen next. `cancel` and `fire` belong to the environment (the
context is cancelled, the armed timer expires); `selectDone` and `selectTick`
are the two cases of the `select`; `send` is the completion of
`writeFingerprintToChannel`. -/
inductive Event where
  | cancel
  | fire
  | selectDone
  | selectTick
  | send
  deriving DecidableEq, Repr

/-- The events of the goroutine itself. -/
def Event.byLoop : Event → Bool
  | .selectDone => true
  | .selectTick => true
  | .send => true
  | _ => false

/-- The state in which `doFingerprint` enters its loop: `time.NewTimer(0)` is
armed and the channel is empty and open. -/
def doFingerprintStart (d : SkeletonDevicePlugin) (ctxDone : Bool) : LoopState :=
  { phase := .selecting, ctxDone := ctxDone, tickReady := false, plugin := d,
    sent := [], closed := false }

/-- The step relation of `doFingerprint` (lines 18-27) and of its environment,
as a function of the event taken; `none` when the event cannot happen in the
state. A `select` case can be taken when
its channel is ready; when both are ready either can be taken. Taking
`<-ctx.Done()` returns, which runs the deferred `close(devices)`; taking
`<-ticker.C` empties the timer channel, re-arms the timer and goes on to
`writeFingerprintToChannel`. -/
def step (ID : String) (s : LoopState) : Event → Option LoopState
  | .cancel => some { s with ctxDone := true }
  | .fire => if s.tickReady then none else some { s with tickReady := true }
  | .selectDone =>
    if s.phase = .selecting ∧ s.ctxDone = true then
      some { s with phase := .stopped, closed := true }
    else none
  | .selectTick =>
    if s.phase = .selecting ∧ s.tickReady = true then
      some { s with phase := .publishing, tickReady := false }
    else none
  | .send =>
    if s.phase = .publishing then
      let r := writeFingerprintToChannel ID s.plugin s.sent
      some { s with phase := .selecting, plugin := r.1, sent := r.2 }
    else none

/-- Run the events of a schedule one after the other; `none` when one of
them cannot happen where it is scheduled. -/
def exec (ID : String) (s : LoopState) : List Event → Option LoopState
  | [] => some s
  | e :: es => (step ID s e).bind (fun s' => exec ID s' es)

/-- The device IDs a fingerprint response lists, over all its groups. -/
def responseIDs (r : FingerprintResponse) : List String :=
  (r.Devices.map (fun g => g.Devices.map (fun dev => dev.ID))).flatten

/-! ## The other methods and the plugin as a whole -/

/-- The method `SetConfig`: the configuration (its raw bytes) is ignored and
the error is nil. -/
def SetConfig (d : SkeletonDevicePlugin) (_c : List Nat) :
    SkeletonDevicePlugin × Option String :=
  (d, none)

/-- The method `Fingerprint`: a fresh channel handed to a new `doFingerprint`
goroutine, and a nil error. -/
def Fingerprint (d : SkeletonDevicePlugin) (ctxDone : Bool) :
    SkeletonDevicePlugin × LoopState × Option String :=
  (d, doFingerprintStart d ctxDone, none)

/-- The method `Stats`: a fresh channel on which nothing is ever sent, and a
nil error. -/
def Stats (d : SkeletonDevicePlugin) (_interval : Nat) :
    SkeletonDevicePlugin × List Unit × Option String :=
  (d, [], none)

/-- An operation on the plugin: a call of one of its methods, or one
discovery cycle of a running `doFingerprint` goroutine. -/
inductive Op where
  | SetConfig (c : List Nat)
  | Fingerprint (ctxDone : Bool)
  | cycle (devices : List FingerprintResponse)
  | Stats (interval : Nat)
  | Reserve (deviceIDs : List String)

/-- The plugin state an operation leaves. -/
def applyOp (ID : String) (d : SkeletonDevicePlugin) : Op → SkeletonDevicePlugin
  | .SetConfig c => (SetConfig d c).1
  | .Fingerprint ctxDone => (Fingerprint d ctxDone).1
  | .cycle devices => (writeFingerprintToChannel ID d devices).1
  | .Stats interval => (Stats d interval).1
  | .Reserve deviceIDs => (Reserve d deviceIDs).1

/-- The plugin state after a sequence of operations on a new plugin. -/
def runOps (ID : String) (ops : List Op) : SkeletonDevicePlugin :=
  ops.foldl (applyOp ID) NewPlugin

/-! ## Reading decimal digits -/

/-- The value of a decimal digit character. -/
def digitVal (c : Char) : Nat := c.toNat - 48

/-- Read a list of digit characters, most significant first, on top of `a`. -/
def readDigits (a : Nat) (cs : List Char) : Nat :=
  cs.foldl (fun a c => a * 10 + digitVal c) a

/-! ## Decimal rendering is injective -/

theorem digitVal_digitChar (k : Nat) (hk : k < 10) : digitVal (Nat.digitChar k) = k := by
  interval_cases k <;> rfl

theorem readDigits_toDigitsCore (fuel : Nat) :
    ∀ (n : Nat) (acc : List Char), n < fuel →
      readDigits 0 (Nat.toDigitsCore 10 fuel n acc) = readDigits n acc := by
  induction fuel with
  | zero => intro n acc h; omega
  | succ f ih =>
    intro n acc h
    have hd : digitVal (Nat.digitChar (n % 10)) = n % 10 :=
      digitVal_digitChar _ (Nat.mod_lt _ (by decide))
    simp only [Nat.toDigitsCore]
    split
    next h0 =>
      have hn : n % 10 = n := Nat.mod_eq_of_lt (by omega)
      rw [hn] at hd
      simp [readDigits, hn, hd]
    next h0 =>
      rw [ih (n / 10) _ (by omega)]
      simp only [readDigits, List.foldl_cons, hd]
      congr 1
      omega

theorem readDigits_repr (n : Nat) : readDigits 0 (Nat.repr n).data = n := by
  simp only [Nat.repr, Nat.toDigits, List.asString]
  rw [readDigits_toDigitsCore (n + 1) n [] (by omega)]
  rfl

theorem toString_nat_injective {i j : Nat} (h : toString i = toString j) : i = j := by
  have h' : Nat.repr i = Nat.repr j := h
  have := congrArg (fun s => readDigits 0 s.data) h'
  simpa [readDigits_repr] using this

theorem envName_injective {i j : Nat} (h : envName i = envName j) : i = j := by
  unfold envName at h
  have hd := congrArg String.data h
  simp only [String.data_append] at hd
  exact toString_nat_injective (String.ext (List.append_cancel_left hd))

/-! ## Go maps: lookup and assignment -/

theorem mapSet_fresh (m : GoMap) (k v : String) (h : k ∉ mapKeys m) :
    mapSet m k v = m ++ [(k, v)] := by
  induction m with
  | nil => rfl
  | cons p rest ih =>
    obtain ⟨k', v'⟩ := p
    simp only [mapKeys, List.map_cons, List.mem_cons, not_or] at h
    simp only [mapSet]
    rw [if_neg (fun e => h.1 e.symm), ih h.2]
    rfl

/-! ## The two loops of `Reserve` -/

theorem collectNotExisting_eq_filter (devices : GoMap) (ids acc : List String) :
    collectNotExisting devices ids acc
      = acc ++ ids.filter (fun id => (mapGet devices id).isNone) := by
  induction ids generalizing acc with
  | nil => simp [collectNotExisting]
  | cons id rest ih =>
    simp only [collectNotExisting]
    cases hg : mapGet devices id with
    | none => simp [ih, List.filter_cons, hg]
    | some v => simp [ih, List.filter_cons, hg]

/-- The entries the second loop adds to the environment from position `i`. -/
theorem buildLoop_present (devices : GoMap) (ids : List String) :
    ∀ (i : Nat) (resp : ContainerReservation),
      (∀ id ∈ ids, mapGet devices id ≠ none) →
      (∀ k ∈ mapKeys resp.Envs, ∀ j, i ≤ j → k ≠ envName j) →
      buildLoop devices i ids resp = .ok
        { Envs := resp.Envs ++ (ids.enumFrom i).map (fun p => (envName p.1, p.2))
          Mounts := resp.Mounts
          Devices := resp.Devices ++ (List.range' i ids.length).map deviceSpecAt } := by
  induction ids with
  | nil => intro i resp _ _; simp [buildLoop]
  | cons id rest ih =>
    intro i resp hall hfresh
    have hid : mapGet devices id ≠ none := hall id (List.mem_cons_self _ _)
    obtain ⟨v, hv⟩ := Option.ne_none_iff_exists'.mp hid
    have hnew : envName i ∉ mapKeys resp.Envs := fun hm => hfresh _ hm i (le_refl _) rfl
    simp only [buildLoop, hv]
    rw [ih (i + 1) _ (fun x hx => hall x (List.mem_cons_of_mem _ hx))]
    · simp [mapSet_fresh _ _ _ hnew, List.enumFrom_cons, List.range'_succ]
    · intro k hk j hj
      simp only [mapSet_fresh _ _ _ hnew, mapKeys, List.map_append, List.map_cons,
        List.map_nil, List.mem_append, List.mem_singleton] at hk
      rcases hk with hk | hk
      · exact hfresh k hk j (by omega)
      · rw [hk]
        intro e
        have := envName_injective e
        omega

theorem Reserve_present (d : SkeletonDevicePlugin) (ids : List String)
    (hne : ids ≠ []) (hall : ∀ id ∈ ids, mapGet d.devices id ≠ none) :
    (Reserve d ids).2 = .ok
      { Envs := ids.enum.map (fun p => (envName p.1, p.2))
        Mounts := [classMount]
        Devices := (List.range ids.length).map deviceSpecAt } := by
  have hlen : ids.length ≠ 0 := fun h => hne (List.length_eq_zero.mp h)
  have hfil : ids.filter (fun id => (mapGet d.devices id).isNone) = [] := by
    rw [List.filter_eq_nil_iff]
    intro id hid
    have := hall id hid
    cases h : mapGet d.devices id <;> simp_all
  simp only [Reserve, if_neg hlen, collectNotExisting_eq_filter, hfil, List.nil_append,
    List.length_nil, ne_eq, not_true_eq_false, if_false]
  rw [buildLoop_present d.devices ids 0 _ hall (by simp [mapKeys])]
  simp [List.enum, List.range_eq_range']

theorem mapGet_enumFrom (ids : List String) :
    ∀ (i j : Nat) (hj : j < ids.length),
      mapGet ((ids.enumFrom i).map (fun p => (envName p.1, p.2))) (envName (i + j))
        = some (ids.get ⟨j, hj⟩) := by
  induction ids with
  | nil => intro i j hj; simp at hj
  | cons id rest ih =>
    intro i j hj
    simp only [List.enumFrom_cons, List.map_cons, mapGet]
    cases j with
    | zero => simp
    | succ j' =>
      have hne : ¬ envName i = envName (i + (j' + 1)) := fun e => by
        have := envName_injective e
        omega
      rw [if_neg hne]
      have h' : j' < rest.length := by simpa using hj
      have := ih (i + 1) j' h'
      rw [show i + 1 + j' = i + (j' + 1) by omega] at this
      simpa using this

theorem mapKeys_enum (ids : List String) :
    mapKeys (ids.enum.map (fun p => (envName p.1, p.2)))
      = (List.range ids.length).map envName := by
  simp only [mapKeys, List.map_map, List.enum]
  rw [List.range_eq_range']
  generalize 0 = i
  induction ids generalizing i with
  | nil => simp
  | cons id rest ih => simp [List.enumFrom_cons, List.range'_succ, ih]

/-! ## Reservation: the claims -/

theorem reservationError_of_absent (d : SkeletonDevicePlugin) (deviceIDs : List String)
    (x : String) (hx : x ∈ deviceIDs) (hxn : mapGet d.devices x = none) :
    ∃ notExistingIDs,
      Reserve d deviceIDs = (d, .error (.reservationError notExistingIDs)) ∧
      notExistingIDs = deviceIDs.filter (fun id => (mapGet d.devices id).isNone) := by
  refine ⟨deviceIDs.filter (fun id => (mapGet d.devices id).isNone), ?_, rfl⟩
  have hlen : deviceIDs.length ≠ 0 := fun h0 => by
    rw [List.length_eq_zero.mp h0] at hx
    simp at hx
  have hmem : x ∈ deviceIDs.filter (fun id => (mapGet d.devices id).isNone) := by
    simp [List.mem_filter, hx, hxn]
  have hfl : (deviceIDs.filter (fun id => (mapGet d.devices id).isNone)).length ≠ 0 :=
    fun h0 => by
      rw [List.length_eq_zero.mp h0] at hmem
      simp at hmem
  simp only [Reserve, if_neg hlen, collectNotExisting_eq_filter, List.nil_append]
  rw [if_pos hfl]

/-- C1: when `deviceIDs` holds at least one ID absent from the registry,
`Reserve` returns the `reservationError` and no descriptor, leaves the plugin
as it was, and the error carries `deviceIDs` filtered to the absent IDs in
input order: an ID is listed exactly when it is requested and absent. -/
theorem Reserve_unknown_devices (d : SkeletonDevicePlugin) (deviceIDs : List String)
    (h : ∃ id ∈ deviceIDs, mapGet d.devices id = none) :
    ∃ notExistingIDs,
      Reserve d deviceIDs = (d, .error (.reservationError notExistingIDs)) ∧
      notExistingIDs = deviceIDs.filter (fun id => (mapGet d.devices id).isNone) ∧
      ∀ id, id ∈ notExistingIDs ↔ (id ∈ deviceIDs ∧ mapGet d.devices id = none) := by
  obtain ⟨x, hx, hxn⟩ := h
  obtain ⟨l, hl, hf⟩ := reservationError_of_absent d deviceIDs x hx hxn
  refine ⟨l, hl, hf, ?_⟩
  intro id
  rw [hf]
  simp [List.mem_filter]

/-- Witness for C1: registry `{"epaper-0"}`, request `["epaper-0", "ghost"]`. -/
theorem Reserve_unknown_devices_witness :
    ∃ notExistingIDs,
      Reserve { logger := "papirus", devices := [("epaper-0", "papirus")] }
          ["epaper-0", "ghost"]
        = ({ logger := "papirus", devices := [("epaper-0", "papirus")] },
            .error (.reservationError notExistingIDs)) ∧
      notExistingIDs = ["ghost"] := by
  obtain ⟨l, h1, h2, _⟩ :=
    Reserve_unknown_devices { logger := "papirus", devices := [("epaper-0", "papirus")] }
      ["epaper-0", "ghost"] ⟨"ghost", by decide, by decide⟩
  exact ⟨l, h1, h2.trans (by decide)⟩

/-- C2: for a non-empty `deviceIDs` whose IDs are all in the registry,
`Reserve` succeeds with exactly `len(deviceIDs)` device specs and exactly
`len(deviceIDs)` environment entries, whose names `DEVICE_0`, ...,
`DEVICE_(n-1)` are pairwise distinct, so repeated IDs are not merged. -/
theorem Reserve_counts (d : SkeletonDevicePlugin) (deviceIDs : List String)
    (hne : deviceIDs ≠ []) (hall : ∀ id ∈ deviceIDs, mapGet d.devices id ≠ none) :
    ∃ resp, (Reserve d deviceIDs).2 = .ok resp ∧
      resp.Devices.length = deviceIDs.length ∧
      resp.Envs.length = deviceIDs.length ∧
      mapKeys resp.Envs
        = (List.range deviceIDs.length).map (fun i => "DEVICE_" ++ toString i) ∧
      (mapKeys resp.Envs).Nodup := by
  refine ⟨_, Reserve_present d deviceIDs hne hall, by simp, by simp [List.enum], ?_, ?_⟩
  · exact mapKeys_enum deviceIDs
  · show (mapKeys (deviceIDs.enum.map (fun p => (envName p.1, p.2)))).Nodup
    rw [mapKeys_enum]
    exact (List.nodup_range _).map (fun _ _ e => envName_injective e)

/-- Witness for C2: registry `{"epaper-0"}`, the same ID requested twice. -/
theorem Reserve_counts_witness :
    ∃ resp,
      (Reserve { logger := "papirus", devices := [("epaper-0", "papirus")] }
          ["epaper-0", "epaper-0"]).2 = .ok resp ∧
      resp.Devices.length = 2 ∧ resp.Envs.length = 2 := by
  obtain ⟨r, h1, h2, h3, _⟩ :=
    Reserve_counts { logger := "papirus", devices := [("epaper-0", "papirus")] }
      ["epaper-0", "epaper-0"] (by decide) (by decide)
  exact ⟨r, h1, h2, h3⟩

/-- C3: for a non-empty `deviceIDs` whose IDs are all in the registry, the
descriptor `Reserve` returns binds, at every position `i`, the environment
name `DEVICE_<i>` to `deviceIDs[i]` and holds as `i`-th device spec the task
path `/dev/skel<i>`, the host path `/dev/devActual` and the permissions `rx`;
every name of the environment is one of these `DEVICE_<i>`. -/
theorem Reserve_entries (d : SkeletonDevicePlugin) (deviceIDs : List String)
    (hne : deviceIDs ≠ []) (hall : ∀ id ∈ deviceIDs, mapGet d.devices id ≠ none) :
    ∃ resp, (Reserve d deviceIDs).2 = .ok resp ∧
      (∀ (i : Nat) (hi : i < deviceIDs.length),
        mapGet resp.Envs ("DEVICE_" ++ toString i) = some (deviceIDs.get ⟨i, hi⟩) ∧
        resp.Devices[i]? = some
          { TaskPath := "/dev/skel" ++ toString i
            HostPath := "/dev/devActual"
            CgroupPerms := "rx" }) ∧
      (∀ k ∈ mapKeys resp.Envs, ∃ i, i < deviceIDs.length ∧ k = "DEVICE_" ++ toString i) := by
  refine ⟨_, Reserve_present d deviceIDs hne hall, ?_, ?_⟩
  · intro i hi
    constructor
    · have := mapGet_enumFrom deviceIDs 0 i hi
      rw [Nat.zero_add] at this
      exact this
    · simp [hi, deviceSpecAt]
  · intro k hk
    have hk' : k ∈ (List.range deviceIDs.length).map envName := by
      rw [← mapKeys_enum]
      exact hk
    obtain ⟨i, hi, rfl⟩ := List.mem_map.mp hk'
    exact ⟨i, List.mem_range.mp hi, rfl⟩

/-- Witness for C3: registry `{"epaper-0"}`, request `["epaper-0"]`: one device
spec and the single environment entry `DEVICE_0 = "epaper-0"`. -/
theorem Reserve_entries_witness :
    ∃ resp,
      (Reserve { logger := "papirus", devices := [("epaper-0", "papirus")] }
          ["epaper-0"]).2 = .ok resp ∧
      mapGet resp.Envs "DEVICE_0" = some "epaper-0" ∧
      resp.Devices[0]? = some
        { TaskPath := "/dev/skel0", HostPath := "/dev/devActual", CgroupPerms := "rx" } ∧
      (∀ k ∈ mapKeys resp.Envs, ∃ i, i < 1 ∧ k = "DEVICE_" ++ toString i) := by
  obtain ⟨r, h1, h2, h3⟩ :=
    Reserve_entries { logger := "papirus", devices := [("epaper-0", "papirus")] }
      ["epaper-0"] (by decide) (by decide)
  exact ⟨r, h1, (h2 0 (by decide)).1, (h2 0 (by decide)).2, h3⟩

/-- C4: whatever the registry holds, `Reserve` of the empty list succeeds with a
descriptor that has no mounts, no device specs and no environment entries, and
leaves the plugin as it was. -/
theorem Reserve_empty (d : SkeletonDevicePlugin) :
    Reserve d [] = (d, .ok { Envs := [], Mounts := [], Devices := [] }) := by
  rfl

/-- C6: for a non-empty `deviceIDs` whose IDs are all in the registry, the
mounts of the descriptor `Reserve` returns are the single read-only mount of
`/usr/lib/libprobably-some-fingerprinted-or-configured-library.so` at
`/usr/lib/libsome-library.so`, whatever IDs and however many were asked for. -/
theorem Reserve_mounts (d : SkeletonDevicePlugin) (deviceIDs : List String)
    (hne : deviceIDs ≠ []) (hall : ∀ id ∈ deviceIDs, mapGet d.devices id ≠ none) :
    ∃ resp, (Reserve d deviceIDs).2 = .ok resp ∧
      resp.Mounts =
        [ { TaskPath := "/usr/lib/libsome-library.so"
            HostPath := "/usr/lib/libprobably-some-fingerprinted-or-configured-library.so"
            ReadOnly := true } ] :=
  ⟨_, Reserve_present d deviceIDs hne hall, rfl⟩

/-- Witness for C6: registry `{"epaper-0", "epaper-1"}`, both requested. -/
theorem Reserve_mounts_witness :
    ∃ resp,
      (Reserve { logger := "papirus",
                 devices := [("epaper-0", "papirus"), ("epaper-1", "papirus")] }
          ["epaper-1", "epaper-0"]).2 = .ok resp ∧
      resp.Mounts =
        [ { TaskPath := "/usr/lib/libsome-library.so"
            HostPath := "/usr/lib/libprobably-some-fingerprinted-or-configured-library.so"
            ReadOnly := true } ] :=
  Reserve_mounts
    { logger := "papirus", devices := [("epaper-0", "papirus"), ("epaper-1", "papirus")] }
    ["epaper-1", "epaper-0"] (by decide) (by decide)

/-- C10: for every registry and every `deviceIDs`, `Reserve` never returns the
`InvalidArgument` error of its second lookup: its result is a descriptor or a
`reservationError`, and the plugin, its registry included, is left as it
was. -/
theorem Reserve_second_lookup_unreachable (d : SkeletonDevicePlugin)
    (deviceIDs : List String) :
    (∀ id, (Reserve d deviceIDs).2 ≠ .error (.invalidArgument id)) ∧
    ((∃ resp, (Reserve d deviceIDs).2 = .ok resp) ∨
      (∃ notExistingIDs, (Reserve d deviceIDs).2 = .error (.reservationError notExistingIDs))) ∧
    (Reserve d deviceIDs).1 = d ∧ (Reserve d deviceIDs).1.devices = d.devices := by
  have hres : (∃ resp, (Reserve d deviceIDs).2 = .ok resp) ∨
      (∃ l, (Reserve d deviceIDs).2 = .error (.reservationError l)) := by
    by_cases hne : deviceIDs = []
    · subst hne
      exact Or.inl ⟨_, rfl⟩
    · by_cases hall : ∀ id ∈ deviceIDs, mapGet d.devices id ≠ none
      · exact Or.inl ⟨_, Reserve_present d deviceIDs hne hall⟩
      · simp only [not_forall, not_not] at hall
        obtain ⟨x, hx, hxn⟩ := hall
        obtain ⟨l, hl, _⟩ := reservationError_of_absent d deviceIDs x hx hxn
        exact Or.inr ⟨l, by rw [hl]⟩
  have hst : (Reserve d deviceIDs).1 = d := by
    unfold Reserve
    split
    · rfl
    · dsimp only
      split <;> rfl
  refine ⟨?_, hres, hst, by rw [hst]⟩
  intro id hid
  rcases hres with ⟨r, hr⟩ | ⟨l, hl⟩
  · rw [hr] at hid
    cases hid
  · rw [hl] at hid
    cases hid

/-! ## Fingerprinting: the claims -/

theorem exec_sent (ID : String) (es : List Event) :
    ∀ (s s' : LoopState), exec ID s es = some s' →
      s'.sent = s.sent ++ List.replicate (es.count .send) (NewFingerprint (deviceGroups ID)) ∧
      s'.plugin = s.plugin := by
  induction es with
  | nil =>
    intro s s' h
    simp only [exec, Option.some.injEq] at h
    subst h
    simp
  | cons e rest ih =>
    intro s s' h
    simp only [exec] at h
    cases hs : step ID s e with
    | none => rw [hs] at h; simp at h
    | some t =>
      rw [hs] at h
      simp only [Option.some_bind] at h
      obtain ⟨h1, h2⟩ := ih t s' h
      cases e <;> simp only [step] at hs
      · cases hs
        simpa using And.intro h1 h2
      · split at hs
        · cases hs
        · cases hs
          simpa using And.intro h1 h2
      · split at hs
        · cases hs
          simpa using And.intro h1 h2
        · cases hs
      · split at hs
        · cases hs
          simpa using And.intro h1 h2
        · cases hs
      · split at hs
        · cases hs
          simp only [writeFingerprintToChannel] at h1 h2
          refine ⟨?_, h2⟩
          rw [h1, List.count_cons_self, List.replicate_succ]
          simp
        · cases hs

/-- C8: a discovery cycle sends exactly one value and leaves the plugin as it
was, and that value is always the same: one group, vendor `adafruit`, type
`epaper`, name `papirus`, no attributes, holding one healthy device with empty
health description, no locality and the package-wide `ID`. So a loop that has
completed `n` cycles has sent `n` copies of it, and the device IDs of each
value sent are pairwise distinct. -/
theorem fingerprint_snapshot (ID : String) (d : SkeletonDevicePlugin)
    (devices : List FingerprintResponse) (ctxDone : Bool) (es : List Event)
    (s' : LoopState) (h : exec ID (doFingerprintStart d ctxDone) es = some s') :
    writeFingerprintToChannel ID d devices
      = (d, devices ++
          [ { Devices :=
                [ { Vendor := "adafruit", Type_ := "epaper", Name := "papirus"
                    Devices :=
                      [ { ID := ID, Healthy := true, HealthDesc := "", HwLocality := none } ]
                    Attributes := none } ]
              Error := none } ]) ∧
    s'.sent = List.replicate (es.count .send)
          { Devices :=
              [ { Vendor := "adafruit", Type_ := "epaper", Name := "papirus"
                  Devices :=
                    [ { ID := ID, Healthy := true, HealthDesc := "", HwLocality := none } ]
                  Attributes := none } ]
            Error := none } ∧
    ∀ r ∈ s'.sent, responseIDs r = [ID] ∧ (responseIDs r).Nodup := by
  have hs := (exec_sent ID es _ _ h).1
  simp only [doFingerprintStart, List.nil_append] at hs
  refine ⟨rfl, hs, ?_⟩
  intro r hr
  rw [hs] at hr
  have := List.eq_of_mem_replicate hr
  subst this
  simp [responseIDs, NewFingerprint, deviceGroups]

/-- Witness for C8: two full cycles of the loop send the snapshot twice. -/
theorem fingerprint_snapshot_witness :
    ∃ s', exec "7d3c9a52" (doFingerprintStart NewPlugin false)
        [.fire, .selectTick, .send, .fire, .selectTick, .send] = some s' ∧
      s'.sent = List.replicate 2
          { Devices :=
              [ { Vendor := "adafruit", Type_ := "epaper", Name := "papirus"
                  Devices :=
                    [ { ID := "7d3c9a52", Healthy := true, HealthDesc := "",
                        HwLocality := none } ]
                  Attributes := none } ]
            Error := none } :=
  ⟨_, rfl,
    (fingerprint_snapshot "7d3c9a52" NewPlugin [] false
      [.fire, .selectTick, .send, .fire, .selectTick, .send] _ rfl).2.1⟩

theorem exec_stopped (ID : String) (es : List Event) :
    ∀ (s s' : LoopState), s.phase = .stopped → exec ID s es = some s' →
      s'.phase = .stopped ∧ s'.closed = s.closed ∧ s'.sent = s.sent ∧
        s'.plugin = s.plugin := by
  induction es with
  | nil =>
    intro s s' hp h
    simp only [exec, Option.some.injEq] at h
    subst h
    exact ⟨hp, rfl, rfl, rfl⟩
  | cons e rest ih =>
    intro s s' hp h
    simp only [exec] at h
    cases hs : step ID s e with
    | none => rw [hs] at h; simp at h
    | some t =>
      rw [hs] at h
      simp only [Option.some_bind] at h
      have ht : t.phase = .stopped ∧ t.closed = s.closed ∧ t.sent = s.sent ∧
          t.plugin = s.plugin := by
        cases e <;> simp only [step] at hs
        · cases hs; exact ⟨hp, rfl, rfl, rfl⟩
        · split at hs
          · cases hs
          · cases hs; exact ⟨hp, rfl, rfl, rfl⟩
        · rw [if_neg (by simp [hp])] at hs; cases hs
        · rw [if_neg (by simp [hp])] at hs; cases hs
        · rw [if_neg (by simp [hp])] at hs; cases hs
      obtain ⟨h1, h2, h3, h4⟩ := ih t s' ht.1 h
      exact ⟨h1, h2.trans ht.2.1, h3.trans ht.2.2.1, h4.trans ht.2.2.2⟩

/-- Counterexample to C7: after one cycle the context is cancelled and the
timer fires again, so both cases of the `select` are ready; the timer case can
be taken, which starts another cycle, and that cycle sends a second
snapshot. -/
theorem doFingerprint_cancel_race :
    ∃ s, exec "7d3c9a52" (doFingerprintStart NewPlugin false)
        [.fire, .selectTick, .send, .cancel, .fire] = some s ∧
      s.phase = .selecting ∧ s.ctxDone = true ∧ s.tickReady = true ∧
      s.sent.length = 1 ∧
      (step "7d3c9a52" s .selectTick).map (fun t => t.phase) = some .publishing ∧
      (exec "7d3c9a52" s [.selectTick, .send]).map (fun t => (t.ctxDone, t.sent.length))
        = some (true, 2) :=
  ⟨_, rfl, rfl, rfl, rfl, rfl, rfl, rfl⟩

/-- C7, amended: once the context is cancelled and the loop waits in its
`select`, the cancellation case can be taken, and it stops the loop and closes
the channel without sending; when the timer tick is not ready it is the only
step the loop itself can take; and after the loop has stopped, whatever
happens next, it stays stopped, the channel stays closed, and nothing more is
sent and the plugin is not touched. -/
theorem doFingerprint_cancelled (ID : String) (s : LoopState)
    (hp : s.phase = .selecting) (hc : s.ctxDone = true) :
    step ID s .selectDone = some { s with phase := .stopped, closed := true } ∧
    (s.tickReady = false →
      ∀ e, e.byLoop = true → e ≠ .selectDone → step ID s e = none) ∧
    (∀ es s', exec ID { s with phase := .stopped, closed := true } es = some s' →
      s'.phase = .stopped ∧ s'.closed = true ∧ s'.sent = s.sent ∧ s'.plugin = s.plugin) := by
  refine ⟨by simp [step, hp, hc], ?_, ?_⟩
  · intro ht e he hne
    cases e <;> simp_all [step, Event.byLoop]
  · intro es s' h
    exact exec_stopped ID es _ s' rfl h

/-- Witness for C7, amended: the loop has completed one cycle, the context is
cancelled and the timer has not fired again. -/
theorem doFingerprint_cancelled_witness :
    step "7d3c9a52"
        { phase := .selecting, ctxDone := true, tickReady := false, plugin := NewPlugin,
          sent := [NewFingerprint (deviceGroups "7d3c9a52")], closed := false }
        .selectDone
      = some
        { phase := .stopped, ctxDone := true, tickReady := false, plugin := NewPlugin,
          sent := [NewFingerprint (deviceGroups "7d3c9a52")], closed := true } ∧
    step "7d3c9a52"
        { phase := .selecting, ctxDone := true, tickReady := false, plugin := NewPlugin,
          sent := [NewFingerprint (deviceGroups "7d3c9a52")], closed := false }
        .selectTick
      = none :=
  ⟨(doFingerprint_cancelled "7d3c9a52"
      { phase := .selecting, ctxDone := true, tickReady := false, plugin := NewPlugin,
        sent := [NewFingerprint (deviceGroups "7d3c9a52")], closed := false }
      rfl rfl).1,
   (doFingerprint_cancelled "7d3c9a52"
      { phase := .selecting, ctxDone := true, tickReady := false, plugin := NewPlugin,
        sent := [NewFingerprint (deviceGroups "7d3c9a52")], closed := false }
      rfl rfl).2.1 rfl .selectTick rfl (by decide)⟩

/-! ## The registry over the life of the plugin -/

theorem applyOp_eq (ID : String) (d : SkeletonDevicePlugin) (op : Op) :
    applyOp ID d op = d := by
  cases op with
  | SetConfig c => rfl
  | Fingerprint c => rfl
  | cycle devices => rfl
  | Stats interval => rfl
  | Reserve deviceIDs =>
    simp only [applyOp]
    unfold Reserve
    split
    · rfl
    · dsimp only
      split <;> rfl

theorem runOps_eq (ID : String) (ops : List Op) : runOps ID ops = NewPlugin := by
  unfold runOps
  generalize NewPlugin = d
  induction ops generalizing d with
  | nil => rfl
  | cons op rest ih => rw [List.foldl_cons, applyOp_eq, ih]

theorem reserve_on_empty_registry (d : SkeletonDevicePlugin) (deviceIDs : List String)
    (hd : d.devices = []) (hne : deviceIDs ≠ []) :
    Reserve d deviceIDs = (d, .error (.reservationError deviceIDs)) := by
  have hlen : deviceIDs.length ≠ 0 := fun h => hne (List.length_eq_zero.mp h)
  have hfil : deviceIDs.filter (fun id => (mapGet d.devices id).isNone) = deviceIDs := by
    rw [List.filter_eq_self]
    intro id _
    rw [hd]
    rfl
  simp only [Reserve, if_neg hlen, collectNotExisting_eq_filter, hfil, List.nil_append]
  rw [if_pos hlen]

/-- C9: in every plugin state reached from `NewPlugin` by any sequence of
`SetConfig`, `Fingerprint`, discovery cycles, `Stats` and `Reserve`, the
registry `devices` is the empty map; so `Reserve` of any non-empty `deviceIDs`
returns the `reservationError` carrying the whole of `deviceIDs`, and never a
descriptor. -/
theorem registry_always_empty (ID : String) (ops : List Op) (deviceIDs : List String)
    (hne : deviceIDs ≠ []) :
    (runOps ID ops).devices = [] ∧
    Reserve (runOps ID ops) deviceIDs
      = (runOps ID ops, .error (.reservationError deviceIDs)) ∧
    ∀ resp, (Reserve (runOps ID ops) deviceIDs).2 ≠ .ok resp := by
  have hd : (runOps ID ops).devices = [] := by rw [runOps_eq]; rfl
  have hr := reserve_on_empty_registry (runOps ID ops) deviceIDs hd hne
  refine ⟨hd, hr, ?_⟩
  intro resp h
  rw [hr] at h
  cases h

/-- Witness for C9: configure, start fingerprinting, run two discovery cycles,
then reserve the advertised device. -/
theorem registry_always_empty_witness :
    (runOps "7d3c9a52"
        [.SetConfig [], .Fingerprint false, .cycle [],
          .cycle [NewFingerprint (deviceGroups "7d3c9a52")], .Stats 1]).devices = [] ∧
    (Reserve
        (runOps "7d3c9a52"
          [.SetConfig [], .Fingerprint false, .cycle [],
            .cycle [NewFingerprint (deviceGroups "7d3c9a52")], .Stats 1])
        ["7d3c9a52"]).2 = .error (.reservationError ["7d3c9a52"]) := by
  obtain ⟨h1, h2, _⟩ :=
    registry_always_empty "7d3c9a52"
      [.SetConfig [], .Fingerprint false, .cycle [],
        .cycle [NewFingerprint (deviceGroups "7d3c9a52")], .Stats 1]
      ["7d3c9a52"] (by decide)
  exact ⟨h1, by rw [h2]⟩

/-- C5, evaluated on the code: a new plugin runs one discovery cycle, which
sends a snapshot listing the device `ID`; the registry is still empty
afterwards, and `Reserve` of that very ID returns the `reservationError`
naming it. -/
theorem discovery_cycle_then_Reserve (ID : String) :
    ∃ s, exec ID (doFingerprintStart NewPlugin false) [.fire, .selectTick, .send] = some s ∧
      s.sent.map responseIDs = [[ID]] ∧
      s.plugin.devices = [] ∧
      mapGet s.plugin.devices ID = none ∧
      (Reserve s.plugin [ID]).2 = .error (.reservationError [ID]) := by
  refine ⟨_, rfl, rfl, rfl, rfl, ?_⟩
  rw [reserve_on_empty_registry _ [ID] rfl (by simp)]

end DevicePlugin
